import Mathlib

/-!
Shallow embedding of `src/export_to_web.py` (the concert-database JSON
exporter) and proofs about the claims on its behaviour.

Conventions of the embedding:
* Firestore documents are records.  A field read with a fixed default
  (`data.get('x', d)`) throughout the code is embedded with that default
  already applied (missing string fields become `""`, missing ints `0`,
  missing bools `false`, missing lists `[]`).  A field whose reads use
  different defaults at different sites, or whose `None`-ness is
  observable, is embedded as `Option`, with `getD` applied per site.
* Python truthiness of a string (`if s:`) is `s != ""`.
* `all_concerts_data` is the id-keyed dict of loaded concerts; it is
  embedded as a `List Concert` (its `.items()` in insertion order, ids
  distinct since they are document ids), and dict lookup is `find?` on id.
* Python's stable `sorted` with a key is embedded as
  `List.insertionSort` with the total preorder induced by the key:
  a stable sort wrt a total preorder is unique, so any stable sort
  embeds CPython's.
-/

namespace ConcertExport

/-- A song entry embedded in a setlist (fields as read by
`export_to_web.py`; uniform defaults applied: `position`/`encore` 0,
`name`/`set_name` empty, `is_cover` false; `cover_artist` and
`guest_artist` keep their `None` as `none`). -/
structure Song where
  position : Int
  name : String
  set_name : String
  encore : Int
  is_cover : Bool
  cover_artist : Option String
  guest_artist : Option String
  deriving DecidableEq, Repr

/-- One element of a concert's `artists` array.  `role` is kept as
`Option` because the code reads it with default `''` at one site and
`'headliner'` at others. -/
structure ConcertArtist where
  artist_id : String
  artist_name : String
  role : Option String
  deriving DecidableEq, Repr

/-- A concert document (`all_concerts_data[concert_id]` plus the doc id). -/
structure Concert where
  id : String
  show_number : Option Int
  date : String
  festival_name : Option String
  venue_name : String
  city : String
  state : String
  venue_id : String
  artists : List ConcertArtist
  setlist_status : Option String
  has_setlist : Option Bool
  opening_song : Option String
  closing_song : Option String
  deriving DecidableEq, Repr

/-- A setlist document.  `tour_name` is a plain string because the code
only ever tests its truthiness (`""` = missing). -/
structure Setlist where
  concert_id : String
  artist_id : Option String
  artist_name : String
  setlistfm_url : Option String
  song_count : Int
  has_encore : Bool
  tour_name : String
  songs : List Song
  deriving DecidableEq, Repr

/-- `a.get('role') in ['headliner', 'festival_performer']`
(lines 59, 421-422, 521-522, 573-574). -/
def primaryRole (r : Option String) : Bool :=
  r == some "headliner" || r == some "festival_performer"

/-- The primary artists of a concert (headliners and festival performers). -/
def primaryArtists (c : Concert) : List ConcertArtist :=
  c.artists.filter (fun a => primaryRole a.role)

/-- `', '.join(...)` over the primary artist names (line 60). -/
def primaryArtistNames (c : Concert) : String :=
  String.intercalate ", " ((primaryArtists c).map (fun a => a.artist_name))

/-- The grouping test of lines 91-95: a setlist enters
`setlists_by_concert` iff its `concert_id` is truthy and matches a
loaded concert. -/
def groupedSetlist (concerts : List Concert) (s : Setlist) : Bool :=
  s.concert_id != "" && concerts.any (fun c => c.id == s.concert_id)

/-- First-occurrence deduplication, mirroring the key order of a Python
dict built by successive insertions. -/
def firstDedupAux (seen : List String) : List String → List String
  | [] => []
  | x :: xs =>
    if seen.contains x then firstDedupAux seen xs
    else x :: firstDedupAux (x :: seen) xs

/-- The keys of `setlists_by_concert` (= `concert_ids_with_setlists`,
lines 245 and 259), in insertion order. -/
def setlistGroupKeys (concerts : List Concert) (setlists : List Setlist) : List String :=
  firstDedupAux [] (((setlists.filter (groupedSetlist concerts)).map (fun s => s.concert_id)))

/-- One record of `concerts.json` (lines 62-73). -/
structure ConcertIndexEntry where
  id : String
  show_number : Option Int
  date : String
  festival_name : Option String
  venue : String
  city : String
  state : String
  artists : String
  hasSetlist : Bool
  setlist_status : String
  deriving DecidableEq, Repr

/-- `concerts_list` as finally written: built with `hasSetlist = False`
(line 71) and back-filled at lines 259-262, so the net value of the flag
is membership of the concert id in the setlist-group keys. -/
def concertIndex (concerts : List Concert) (setlists : List Setlist) :
    List ConcertIndexEntry :=
  concerts.map (fun c =>
    { id := c.id
      show_number := c.show_number
      date := c.date
      festival_name := c.festival_name
      venue := c.venue_name
      city := c.city
      state := c.state
      artists := primaryArtistNames c
      hasSetlist := (setlistGroupKeys concerts setlists).contains c.id
      setlist_status := c.setlist_status.getD "not_researched" })

/-- The set of stems present in `concert_details/` after a run, given the
stems present before (`pre`): the loop at lines 98-238 writes one file per
group key, and the cleanup at lines 244-253 deletes every file whose stem
is not a group key. -/
def detailFilesAfterRun (pre keys : List String) : List String :=
  (pre ++ keys.filter (fun k => !pre.contains k)).filter (fun f => keys.contains f)

/-- The setlists grouped under one concert id
(`setlists_by_concert[cid]`, lines 88-95), in stream order. -/
def setlistsFor (concerts : List Concert) (setlists : List Setlist)
    (cid : String) : List Setlist :=
  setlists.filter (fun s => groupedSetlist concerts s && s.concert_id == cid)

/-- The `artist_roles` dict of lines 179-180: artist name to role, later
entries overwriting earlier ones, with the lookup default `'headliner'`
of lines 187 and 209. -/
def roleOf (c : Concert) (name : String) : String :=
  match c.artists.reverse.find? (fun a => a.artist_name == name) with
  | some a => a.role.getD "headliner"
  | none => "headliner"

/-- `role_priority` (line 183) with its `.get(..., 2)` default:
opener maps to 1, everything else (headliner, festival performer,
unknown) to 2. -/
def rolePriority (r : String) : Nat :=
  if r == "opener" then 1 else 2

/-- Lexicographic strict comparison of char lists by code point — the
order CPython uses on strings. -/
def pyListLt : List Char → List Char → Bool
  | [], [] => false
  | [], _ :: _ => true
  | _ :: _, [] => false
  | a :: as, b :: bs =>
    if a < b then true
    else if b < a then false
    else pyListLt as bs

/-- Python's `a < b` on strings. -/
def pyStrLt (a b : String) : Bool :=
  pyListLt a.data b.data

/-- Python's `a <= b` on strings (a total preorder). -/
def pyStrLE (a b : String) : Bool :=
  !pyStrLt b a

/-- The sort key of lines 186-188: (role priority, artist name). -/
def setlistSortKey (c : Concert) (s : Setlist) : Nat × String :=
  (rolePriority (roleOf c s.artist_name), s.artist_name)

/-- The total preorder induced by the sort key (Python compares the key
tuples lexicographically). -/
def setlistLE (c : Concert) (s t : Setlist) : Prop :=
  (setlistSortKey c s).1 < (setlistSortKey c t).1 ∨
    ((setlistSortKey c s).1 = (setlistSortKey c t).1 ∧
      pyStrLE (setlistSortKey c s).2 (setlistSortKey c t).2 = true)

instance setlistLEDec (c : Concert) : DecidableRel (setlistLE c) := fun s t => by
  unfold setlistLE
  infer_instance

/-- `sorted_setlists` (lines 186-188): CPython's sort is stable, and a
stable sort with respect to a total preorder is unique, so the stable
`List.insertionSort` embeds it. -/
def sortedSetlists (c : Concert) (ls : List Setlist) : List Setlist :=
  List.insertionSort (setlistLE c) ls

/-- The concert-level `tour_name` of the multi-setlist branch
(lines 216-219 and 233-235): collect the truthy `tour_name` values while
iterating the sorted setlists, and emit the single element when the
resulting set has exactly one. -/
def detailTourName (c : Concert) (ls : List Setlist) : Option String :=
  match firstDedupAux []
      ((sortedSetlists c ls).filterMap
        (fun s => if s.tour_name != "" then some s.tour_name else none)) with
  | [t] => some t
  | _ => none

/-- Python's `max(l, key=k)`: scan left-to-right, replacing the current
maximum only when the new key is strictly greater, so the first element
attaining the maximum is returned. -/
def pyMaxBy {α : Type} (key : α → Int) : List α → Option α
  | [] => none
  | x :: xs => some (xs.foldl (fun acc y => if key acc < key y then y else acc) x)

/-- `non_encore_songs` (line 450). -/
def nonEncoreSongs (s : Setlist) : List Song :=
  s.songs.filter (fun sg => sg.encore == 0)

/-- `last_song` (line 452): the closing-song choice for one setlist. -/
def closingSongOf (s : Setlist) : Option Song :=
  pyMaxBy (fun sg => sg.position) (nonEncoreSongs s)

/-- Concrete song used in the C3 counterexample (a position tie). -/
def tieSongA : Song :=
  { position := 2, name := "A", set_name := "", encore := 0,
    is_cover := false, cover_artist := none, guest_artist := none }

/-- Concrete song used in the C3 counterexample (a position tie). -/
def tieSongB : Song :=
  { position := 2, name := "B", set_name := "", encore := 0,
    is_cover := false, cover_artist := none, guest_artist := none }

/-- Concrete setlist whose two non-encore songs share the maximum
position. -/
def tieSetlist : Setlist :=
  { concert_id := "c1", artist_id := none, artist_name := "A",
    setlistfm_url := none, song_count := 2, has_encore := false,
    tour_name := "", songs := [tieSongA, tieSongB] }

/-- Concrete concert used by the C2 counterexample and the C7 witness:
artist P is the headliner, artist O the opener. -/
def demoConcert : Concert :=
  { id := "c1", show_number := some 1, date := "2020-01-01",
    festival_name := none, venue_name := "V", city := "X", state := "Y",
    venue_id := "v1",
    artists := [{ artist_id := "p", artist_name := "P", role := some "headliner" },
                { artist_id := "o", artist_name := "O", role := some "opener" }],
    setlist_status := none, has_setlist := none,
    opening_song := none, closing_song := none }

/-- Setlist of the headliner P carrying a tour name. -/
def demoSetlistWithTour : Setlist :=
  { concert_id := "c1", artist_id := some "mb-p", artist_name := "P",
    setlistfm_url := none, song_count := 0, has_encore := false,
    tour_name := "T", songs := [] }

/-- Setlist of the opener O carrying no tour name. -/
def demoSetlistNoTour : Setlist :=
  { concert_id := "c1", artist_id := some "mb-o", artist_name := "O",
    setlistfm_url := none, song_count := 0, has_encore := false,
    tour_name := "", songs := [] }

/-- `total_songs` of the statistics stage (lines 354-358): the
`song_count` of EVERY setlist is summed, with no orphan filtering. -/
def totalSongs (setlists : List Setlist) : Int :=
  setlists.foldl (fun acc s => acc + s.song_count) 0

/-- Sum of `song_count` over the non-orphaned (grouped) setlists only —
the reading of the claim, used to compare against `totalSongs`. -/
def groupedSongCountSum (concerts : List Concert) (setlists : List Setlist) : Int :=
  ((setlists.filter (groupedSetlist concerts)).map (fun s => s.song_count)).sum

/-- Sum of `song_count` over the orphaned setlists. -/
def orphanSongCountSum (concerts : List Concert) (setlists : List Setlist) : Int :=
  ((setlists.filter (fun s => !groupedSetlist concerts s)).map
    (fun s => s.song_count)).sum

/-- Setlist referencing the loaded demo concert (for C4). -/
def matchedSetlist : Setlist :=
  { concert_id := "c1", artist_id := none, artist_name := "P",
    setlistfm_url := none, song_count := 3, has_encore := false,
    tour_name := "", songs := [] }

/-- Setlist referencing an unknown concert id (orphaned, for C4). -/
def orphanSetlist : Setlist :=
  { concert_id := "zzz", artist_id := none, artist_name := "Q",
    setlistfm_url := none, song_count := 5, has_encore := false,
    tour_name := "", songs := [] }

/-- Tail of a Python integer literal after its first digit: digits with
single underscores allowed between digits. -/
def digitsTail : List Char → Bool
  | [] => true
  | ['_'] => false
  | '_' :: c :: rest => c.isDigit && digitsTail (c :: rest)
  | c :: rest => c.isDigit && digitsTail rest
  termination_by l => l.length
  decreasing_by all_goals (simp ; try omega)

/-- Decimal value of a digit list (underscores removed beforehand). -/
def digitsVal (cs : List Char) : Int :=
  cs.foldl (fun a c => a * 10 + ((c.toNat : Int) - 48)) 0

/-- Strip leading and trailing whitespace, as Python `int()` does on its
string argument before parsing. -/
def pyTrimChars (cs : List Char) : List Char :=
  ((cs.dropWhile Char.isWhitespace).reverse.dropWhile Char.isWhitespace).reverse

/-- Python's `int(str)` in base 10 as used on date prefixes: optional
surrounding whitespace, optional single sign, then ASCII decimal digits
with single underscores between digits; anything else raises
`ValueError`, embedded as `none`. -/
def pyIntOfString? (s : String) : Option Int :=
  let cs := pyTrimChars s.toList
  let signDigits : Int × List Char :=
    match cs with
    | '+' :: rest => (1, rest)
    | '-' :: rest => (-1, rest)
    | rest => (1, rest)
  match signDigits.2 with
  | [] => none
  | c :: rest =>
    if c.isDigit && digitsTail rest then
      some (signDigits.1 * digitsVal ((c :: rest).filter (fun ch => ch != '_')))
    else none

/-- `concerts_by_year_dict[year] += 1` (line 377): a Python dict keyed by
year, embedded as an association list in key-insertion order. -/
def bumpYear (acc : List (Int × Nat)) (y : Int) : List (Int × Nat) :=
  if acc.any (fun p => p.1 == y) then
    acc.map (fun p => if p.1 == y then (p.1, p.2 + 1) else p)
  else acc ++ [(y, 1)]

/-- The loop of lines 372-377.  `int(date_str[:4])` can raise, so the
whole computation is `Option`-valued: `none` embeds an uncaught
`ValueError` aborting the run. -/
def byYearDictAux (acc : List (Int × Nat)) : List Concert → Option (List (Int × Nat))
  | [] => some acc
  | c :: rest =>
    if c.date != "" && decide (4 ≤ c.date.length) then
      match pyIntOfString? ((c.date.toList.take 4).asString) with
      | none => none
      | some y => byYearDictAux (bumpYear acc y) rest
    else byYearDictAux acc rest

/-- One record of `concerts_by_year` in `stats.json`. -/
structure YearCount where
  year : Int
  count : Nat
  deriving DecidableEq, Repr

/-- `sorted(concerts_by_year_dict.items(), reverse=True)`: descending
lexicographic order on the (year, count) pairs. -/
def yearPairGE (a b : Int × Nat) : Prop :=
  b.1 < a.1 ∨ (a.1 = b.1 ∧ b.2 ≤ a.2)

instance yearPairGEDec : DecidableRel yearPairGE := fun a b => by
  unfold yearPairGE
  infer_instance

/-- `concerts_by_year` (lines 372-380). -/
def concertsByYear? (concerts : List Concert) : Option (List YearCount) :=
  (byYearDictAux [] concerts).map (fun d =>
    (List.insertionSort yearPairGE d).map (fun p => ⟨p.1, p.2⟩))

/-- Concert whose date is non-empty, 4 characters long, and not numeric
(for C5). -/
def badDateConcert : Concert :=
  { id := "cbad", show_number := none, date := "abcd",
    festival_name := none, venue_name := "V", city := "X", state := "Y",
    venue_id := "v1", artists := [], setlist_status := none,
    has_setlist := none, opening_song := none, closing_song := none }

/-- The inclusion test of the analytics passes (lines 414 and 569):
`concert_id not in all_concerts_data → continue` — membership only, no
truthiness check. -/
def analyticsIncluded (concerts : List Concert) (s : Setlist) : Bool :=
  concerts.any (fun c => c.id == s.concert_id)

/-- `song_counts[name]` (line 429): occurrences of a (truthy) song name
across all included setlists. -/
def songCounts (concerts : List Concert) (setlists : List Setlist)
    (name : String) : Nat :=
  ((setlists.filter (analyticsIncluded concerts)).map
    (fun s => s.songs.countP (fun sg => sg.name != "" && sg.name == name))).sum

/-- `song_cover_counts[name]` (lines 430-431). -/
def coverCounts (concerts : List Concert) (setlists : List Setlist)
    (name : String) : Nat :=
  ((setlists.filter (analyticsIncluded concerts)).map
    (fun s => s.songs.countP
      (fun sg => sg.name != "" && sg.name == name && sg.is_cover))).sum

/-- `times_as_cover > times_heard / 2` (line 466): Python true division,
embedded as exact rational division. -/
def isMostlyCover (timesHeard timesAsCover : Nat) : Bool :=
  decide ((timesAsCover : ℚ) > (timesHeard : ℚ) / 2)

/-- One record of `all_songs` in `songs.json` (lines 460-467). -/
structure AllSongsEntry where
  name : String
  times_heard : Nat
  is_mostly_cover : Bool
  deriving DecidableEq, Repr

/-- The keys of `song_counts` in insertion (first occurrence) order. -/
def allSongNames (concerts : List Concert) (setlists : List Setlist) : List String :=
  firstDedupAux []
    (((setlists.filter (analyticsIncluded concerts)).flatMap (fun s => s.songs)).filterMap
      (fun sg => if sg.name != "" then some sg.name else none))

/-- `all_songs.sort(key=times_heard, reverse=True)` (line 469):
descending by `times_heard`, stable. -/
def allSongsLE (a b : AllSongsEntry) : Prop :=
  b.times_heard ≤ a.times_heard

instance allSongsLEDec : DecidableRel allSongsLE := fun a b => by
  unfold allSongsLE
  infer_instance

/-- The `all_songs` array (lines 460-469). -/
def allSongs (concerts : List Concert) (setlists : List Setlist) : List AllSongsEntry :=
  List.insertionSort allSongsLE
    ((allSongNames concerts setlists).map (fun n =>
      ⟨n, songCounts concerts setlists n,
        isMostlyCover (songCounts concerts setlists n)
          (coverCounts concerts setlists n)⟩))

/-- Demo concert 1 for the analytics claims: headliner P, opener O. -/
def analyticsConcert1 : Concert :=
  { id := "c1", show_number := some 1, date := "2020-01-01",
    festival_name := none, venue_name := "V", city := "X", state := "Y",
    venue_id := "v1",
    artists := [{ artist_id := "p", artist_name := "P", role := some "headliner" },
                { artist_id := "o", artist_name := "O", role := some "opener" }],
    setlist_status := none, has_setlist := none,
    opening_song := none, closing_song := none }

/-- Demo concert 2, same bill as concert 1. -/
def analyticsConcert2 : Concert :=
  { id := "c2", show_number := some 2, date := "2021-02-02",
    festival_name := none, venue_name := "V", city := "X", state := "Y",
    venue_id := "v1",
    artists := [{ artist_id := "p", artist_name := "P", role := some "headliner" },
                { artist_id := "o", artist_name := "O", role := some "opener" }],
    setlist_status := none, has_setlist := none,
    opening_song := none, closing_song := none }

/-- Demo opener-performed setlist at concert 1: opening song X (a
cover), main-set closer C, encore song E. -/
def analyticsSetlist1 : Setlist :=
  { concert_id := "c1", artist_id := some "mb-o", artist_name := "O",
    setlistfm_url := none, song_count := 3, has_encore := true,
    tour_name := "",
    songs := [{ position := 1, name := "X", set_name := "", encore := 0,
                is_cover := true, cover_artist := some "W", guest_artist := none },
              { position := 2, name := "C", set_name := "", encore := 0,
                is_cover := false, cover_artist := none, guest_artist := none },
              { position := 3, name := "E", set_name := "", encore := 1,
                is_cover := false, cover_artist := none, guest_artist := none }] }

/-- Demo opener-performed setlist at concert 2, same songs. -/
def analyticsSetlist2 : Setlist :=
  { concert_id := "c2", artist_id := some "mb-o", artist_name := "O",
    setlistfm_url := none, song_count := 3, has_encore := true,
    tour_name := "",
    songs := [{ position := 1, name := "X", set_name := "", encore := 0,
                is_cover := true, cover_artist := some "W", guest_artist := none },
              { position := 2, name := "C", set_name := "", encore := 0,
                is_cover := false, cover_artist := none, guest_artist := none },
              { position := 3, name := "E", set_name := "", encore := 1,
                is_cover := false, cover_artist := none, guest_artist := none }] }

/-- An artist document of the `artists` collection: doc id and
`canonical_name` (lines 278-281). -/
structure VenueDoc where
  id : String
  canonical_name : String
  city : String
  state : String
  deriving DecidableEq, Repr

/-- One record of `artists.json` (lines 291-299). -/
structure ArtistEntry where
  id : String
  name : String
  concert_count : Nat
  deriving DecidableEq, Repr

/-- One record of `venues.json` (lines 328-338). -/
structure VenueEntry where
  id : String
  name : String
  city : String
  state : String
  concert_count : Nat
  deriving DecidableEq, Repr

/-- `artist_concert_counts.get(aid, 0)` (lines 283-289): one increment
per concert-artist membership with a truthy `artist_id`. -/
def artistDictCount (concerts : List Concert) (aid : String) : Nat :=
  (concerts.map (fun c =>
    c.artists.countP (fun a => a.artist_id != "" && a.artist_id == aid))).sum

/-- Independent recount of the claim: memberships with exactly this
artist identifier, over all loaded concerts and all roles. -/
def artistMembershipCount (concerts : List Concert) (aid : String) : Nat :=
  (concerts.map (fun c => c.artists.countP (fun a => a.artist_id == aid))).sum

/-- `venue_concert_counts.get(vid, 0)` (lines 313-326). -/
def venueDictCount (concerts : List Concert) (vid : String) : Nat :=
  concerts.countP (fun c => c.venue_id != "" && c.venue_id == vid)

/-- Independent recount: loaded concerts whose `venue_id` matches. -/
def venueMatchCount (concerts : List Concert) (vid : String) : Nat :=
  concerts.countP (fun c => c.venue_id == vid)

/-- Sort key of line 302: `(-concert_count, name)` ascending, i.e.
descending count with ties by ascending name. -/
def artistEntryLE (a b : ArtistEntry) : Prop :=
  b.concert_count < a.concert_count ∨
    (a.concert_count = b.concert_count ∧ pyStrLE a.name b.name = true)

instance artistEntryLEDec : DecidableRel artistEntryLE := fun a b => by
  unfold artistEntryLE
  infer_instance

/-- Sort key of line 341, like `artistEntryLE`. -/
def venueEntryLE (a b : VenueEntry) : Prop :=
  b.concert_count < a.concert_count ∨
    (a.concert_count = b.concert_count ∧ pyStrLE a.name b.name = true)

instance venueEntryLEDec : DecidableRel venueEntryLE := fun a b => by
  unfold venueEntryLE
  infer_instance

/-- `artists.json` (lines 291-302): `artist_names_map` is the id-keyed
dict of artist docs, given here as its items list. -/
def artistsJson (concerts : List Concert)
    (artistMap : List (String × String)) : List ArtistEntry :=
  List.insertionSort artistEntryLE
    (artistMap.filterMap (fun p =>
      if 0 < artistDictCount concerts p.1 then
        some ⟨p.1, p.2, artistDictCount concerts p.1⟩
      else none))

/-- `venues.json` (lines 328-341). -/
def venuesJson (concerts : List Concert)
    (venueMap : List VenueDoc) : List VenueEntry :=
  List.insertionSort venueEntryLE
    (venueMap.filterMap (fun v =>
      if 0 < venueDictCount concerts v.id then
        some ⟨v.id, v.canonical_name, v.city, v.state,
          venueDictCount concerts v.id⟩
      else none))

/-- One per-concert record inside `venue_details/<vid>.json`
(lines 525-534). -/
structure VenueDetailConcert where
  id : String
  show_number : Option Int
  date : String
  festival_name : Option String
  artists : String
  has_setlist : Bool
  opening_song : Option String
  closing_song : Option String
  deriving DecidableEq, Repr

/-- One per-concert record inside `artist_details/<aid>.json`
(lines 591-603). -/
structure ArtistDetailConcert where
  id : String
  show_number : Option Int
  date : String
  festival_name : Option String
  venue : String
  city : String
  state : String
  role : String
  has_setlist : Bool
  opening_song : Option String
  closing_song : Option String
  deriving DecidableEq, Repr

/-- `concerts_at_venue.sort(key=date, reverse=True)` (line 540). -/
def venueDateDescLE (a b : VenueDetailConcert) : Prop :=
  pyStrLE b.date a.date = true

instance venueDateDescLEDec : DecidableRel venueDateDescLE := fun a b => by
  unfold venueDateDescLE
  infer_instance

/-- `concerts_for_artist.sort(key=date, reverse=True)` (line 610). -/
def artistDateDescLE (a b : ArtistDetailConcert) : Prop :=
  pyStrLE b.date a.date = true

instance artistDateDescLEDec : DecidableRel artistDateDescLE := fun a b => by
  unfold artistDateDescLE
  infer_instance

/-- `concerts_at_venue` (lines 515-540): `has_setlist` comes from the
STORED concert field with default `False`, not from the computed setlist
grouping. -/
def concertsAtVenue (concerts : List Concert) (vid : String) : List VenueDetailConcert :=
  List.insertionSort venueDateDescLE
    ((concerts.filter (fun c => c.venue_id == vid)).map (fun c =>
      ⟨c.id, c.show_number, c.date, c.festival_name, primaryArtistNames c,
        c.has_setlist.getD false, c.opening_song, c.closing_song⟩))

/-- `concerts_for_artist` (lines 584-610): one record per concert whose
roster contains the artist id, using the FIRST matching roster entry
(the loop breaks), `has_setlist` again from the stored field. -/
def concertsForArtist (concerts : List Concert) (aid : String) : List ArtistDetailConcert :=
  List.insertionSort artistDateDescLE
    (concerts.filterMap (fun c =>
      (c.artists.find? (fun a => a.artist_id == aid)).map (fun a =>
        ⟨c.id, c.show_number, c.date, c.festival_name, c.venue_name, c.city,
          c.state, a.role.getD "headliner", c.has_setlist.getD false,
          c.opening_song, c.closing_song⟩)))

/-- The opening-song test of line 442:
`position == 1 and (set_name in ['Main Set', ''] or encore == 0)`. -/
def openingCond (sg : Song) : Bool :=
  sg.position == 1 &&
    (sg.set_name == "Main Set" || sg.set_name == "" || decide (sg.encore = 0))

/-- Number of primary-artist roster entries of a concert bearing a given
name (the inner `for artist in primary_artists` loop increments once per
entry). -/
def primaryCountNamed (c : Concert) (an : String) : Nat :=
  (primaryArtists c).countP (fun a => a.artist_name == an)

/-- `opening_songs[artist][song]` (lines 408-443): per included setlist,
each qualifying song occurrence is credited once per primary-artist
roster entry of the setlist's concert. -/
def openingCount (concerts : List Concert) (setlists : List Setlist)
    (an sn : String) : Nat :=
  (setlists.map (fun s =>
    match concerts.find? (fun c => c.id == s.concert_id) with
    | none => 0
    | some c =>
      primaryCountNamed c an *
        s.songs.countP (fun sg => sg.name != "" && openingCond sg && sg.name == sn))).sum

/-- `encore_songs[artist][song]` (lines 445-447). -/
def encoreCount (concerts : List Concert) (setlists : List Setlist)
    (an sn : String) : Nat :=
  (setlists.map (fun s =>
    match concerts.find? (fun c => c.id == s.concert_id) with
    | none => 0
    | some c =>
      primaryCountNamed c an *
        s.songs.countP (fun sg => sg.name != "" && decide (0 < sg.encore) && sg.name == sn))).sum

/-- `closing_songs[artist][song]` (lines 449-457). -/
def closingCount (concerts : List Concert) (setlists : List Setlist)
    (an sn : String) : Nat :=
  (setlists.map (fun s =>
    match concerts.find? (fun c => c.id == s.concert_id) with
    | none => 0
    | some c =>
      match closingSongOf s with
      | none => 0
      | some last =>
        if last.name != "" && last.name == sn then primaryCountNamed c an
        else 0)).sum

/-- Membership of (artist, song) in `opening_songs_by_artist`
(lines 472-478): present iff counted at least twice. -/
def inOpeningTable (concerts : List Concert) (setlists : List Setlist)
    (an sn : String) : Bool :=
  decide (2 ≤ openingCount concerts setlists an sn)

/-- Membership in `closing_songs_by_artist` (lines 481-487). -/
def inClosingTable (concerts : List Concert) (setlists : List Setlist)
    (an sn : String) : Bool :=
  decide (2 ≤ closingCount concerts setlists an sn)

/-- Membership in `encore_songs_by_artist` (lines 490-496). -/
def inEncoreTable (concerts : List Concert) (setlists : List Setlist)
    (an sn : String) : Bool :=
  decide (2 ≤ encoreCount concerts setlists an sn)

theorem pyListLt_iff : ∀ as bs : List Char, pyListLt as bs = true ↔ as < bs := by
  intro as
  induction as with
  | nil =>
    intro bs
    cases bs with
    | nil =>
      simp only [pyListLt, Bool.false_eq_true, false_iff]
      intro h
      cases h
    | cons b bs =>
      simp only [pyListLt, true_iff]
      exact List.Lex.nil
  | cons a as ih =>
    intro bs
    cases bs with
    | nil =>
      simp only [pyListLt, Bool.false_eq_true, false_iff]
      intro h
      cases h
    | cons b bs =>
      by_cases hab : a < b
      · rw [show pyListLt (a :: as) (b :: bs) = true from by
          rw [pyListLt, if_pos hab]]
        simp only [true_iff]
        exact List.Lex.rel hab
      · by_cases hba : b < a
        · rw [show pyListLt (a :: as) (b :: bs) = false from by
            rw [pyListLt, if_neg hab, if_pos hba]]
          simp only [Bool.false_eq_true, false_iff]
          intro h
          cases h with
          | rel h' => exact hab h'
          | cons _ => exact lt_irrefl a hba
        · have hake : a = b := le_antisymm (not_lt.mp hba) (not_lt.mp hab)
          subst hake
          rw [show pyListLt (a :: as) (a :: bs) = pyListLt as bs from by
            rw [pyListLt, if_neg hab, if_neg hba]]
          rw [ih bs]
          constructor
          · intro h
            exact List.Lex.cons h
          · intro h
            cases h with
            | rel h' => exact absurd h' hab
            | cons h3 => exact h3

theorem pyStrLt_iff (a b : String) : pyStrLt a b = true ↔ a < b :=
  (pyListLt_iff a.data b.data).trans String.lt_iff_toList_lt.symm

theorem pyStrLE_iff (a b : String) : pyStrLE a b = true ↔ a ≤ b := by
  unfold pyStrLE
  cases hpb : pyStrLt b a
  · simp only [Bool.not_false, true_iff]
    refine not_lt.mp (fun hc => ?_)
    rw [(pyStrLt_iff b a).mpr hc] at hpb
    cases hpb
  · simp only [Bool.not_true, Bool.false_eq_true, false_iff]
    intro hle
    exact absurd ((pyStrLt_iff b a).mp hpb) (not_lt.mpr hle)

theorem mem_firstDedupAux (x : String) :
    ∀ (l seen : List String), x ∈ firstDedupAux seen l ↔ x ∈ l ∧ ¬ x ∈ seen := by
  intro l
  induction l with
  | nil => intro seen; simp [firstDedupAux]
  | cons y ys ih =>
    intro seen
    by_cases hy : y ∈ seen
    · rw [show firstDedupAux seen (y :: ys) = firstDedupAux seen ys from by
        rw [firstDedupAux, if_pos (List.elem_iff.mpr hy)]]
      rw [ih seen]
      constructor
      · rintro ⟨h1, h2⟩; exact ⟨List.mem_cons_of_mem _ h1, h2⟩
      · rintro ⟨h1, h2⟩
        rcases List.mem_cons.mp h1 with rfl | h1
        · exact absurd hy h2
        · exact ⟨h1, h2⟩
    · rw [show firstDedupAux seen (y :: ys) = y :: firstDedupAux (y :: seen) ys from by
        rw [firstDedupAux, if_neg (fun hc => hy (List.elem_iff.mp hc))]]
      constructor
      · intro h
        rcases List.mem_cons.mp h with rfl | h
        · exact ⟨List.mem_cons_self _ _, hy⟩
        · rcases (ih (y :: seen)).mp h with ⟨h1, h2⟩
          exact ⟨List.mem_cons_of_mem _ h1,
            fun hc => h2 (List.mem_cons_of_mem _ hc)⟩
      · rintro ⟨h1, h2⟩
        by_cases hxy : x = y
        · subst hxy; exact List.mem_cons_self _ _
        · rcases List.mem_cons.mp h1 with rfl | h1
          · exact absurd rfl hxy
          · refine List.mem_cons_of_mem _ ((ih (y :: seen)).mpr ⟨h1, ?_⟩)
            intro hc
            rcases List.mem_cons.mp hc with h3 | h3
            · exact hxy h3
            · exact h2 h3

theorem mem_setlistGroupKeys (concerts : List Concert) (setlists : List Setlist)
    (cid : String) :
    cid ∈ setlistGroupKeys concerts setlists ↔
      ∃ s ∈ setlists, groupedSetlist concerts s = true ∧ s.concert_id = cid := by
  unfold setlistGroupKeys
  rw [mem_firstDedupAux]
  simp only [List.not_mem_nil, not_false_iff, and_true, List.mem_map, List.mem_filter]
  constructor
  · rintro ⟨s, ⟨hmem, hg⟩, rfl⟩; exact ⟨s, hmem, hg, rfl⟩
  · rintro ⟨s, hmem, hg, rfl⟩; exact ⟨s, ⟨hmem, hg⟩, rfl⟩

theorem mem_detailFilesAfterRun (pre keys : List String) (f : String) :
    f ∈ detailFilesAfterRun pre keys ↔ f ∈ keys := by
  unfold detailFilesAfterRun
  rw [List.mem_filter]
  constructor
  · rintro ⟨-, hc⟩; exact List.elem_iff.mp hc
  · intro hk
    refine ⟨?_, List.elem_iff.mpr hk⟩
    rw [List.mem_append]
    by_cases hp : f ∈ pre
    · exact Or.inl hp
    · refine Or.inr (List.mem_filter.mpr ⟨hk, ?_⟩)
      have hc : pre.contains f = false := by
        cases hc : pre.contains f
        · rfl
        · exact absurd (List.elem_iff.mp hc) hp
      rw [hc]; rfl

/-- **C1.** For every concert in the loaded set, the `concerts.json`
record has `hasSetlist = true` iff at least one non-orphaned setlist
references the concert's id, which is also exactly the condition under
which `concert_details/<id>.json` exists after the run (whatever detail
files existed before). -/
theorem hasSetlist_iff_detail_file (concerts : List Concert)
    (setlists : List Setlist) (pre : List String) :
    ∀ e ∈ concertIndex concerts setlists,
      (e.hasSetlist = true ↔
        ∃ s ∈ setlists, groupedSetlist concerts s = true ∧ s.concert_id = e.id)
      ∧ (e.hasSetlist = true ↔
          e.id ∈ detailFilesAfterRun pre (setlistGroupKeys concerts setlists)) := by
  intro e he
  rcases List.mem_map.mp he with ⟨c, _, rfl⟩
  constructor
  · exact List.elem_iff.trans (mem_setlistGroupKeys concerts setlists c.id)
  · exact List.elem_iff.trans (mem_detailFilesAfterRun pre _ c.id).symm

/-- Witness for C1 at a concrete input. -/
theorem hasSetlist_iff_detail_file_witness :
    let c : Concert :=
      { id := "c1", show_number := none, date := "2020-01-01",
        festival_name := none, venue_name := "V", city := "X", state := "Y",
        venue_id := "v1", artists := [], setlist_status := none,
        has_setlist := none, opening_song := none, closing_song := none }
    let s : Setlist :=
      { concert_id := "c1", artist_id := none, artist_name := "A",
        setlistfm_url := none, song_count := 0, has_encore := false,
        tour_name := "", songs := [] }
    ∀ e ∈ concertIndex [c] [s],
      (e.hasSetlist = true ↔
        ∃ t ∈ [s], groupedSetlist [c] t = true ∧ t.concert_id = e.id)
      ∧ (e.hasSetlist = true ↔
          e.id ∈ detailFilesAfterRun ["stale"] (setlistGroupKeys [c] [s])) := by
  intro c s
  exact hasSetlist_iff_detail_file [c] [s] ["stale"]

theorem firstDedupAux_eq_nil :
    ∀ (l seen : List String), (∀ x ∈ l, x ∈ seen) → firstDedupAux seen l = [] := by
  intro l
  induction l with
  | nil => intro seen _; rfl
  | cons y ys ih =>
    intro seen h
    rw [firstDedupAux, if_pos (List.elem_iff.mpr (h y (List.mem_cons_self y ys)))]
    exact ih seen (fun x hx => h x (List.mem_cons_of_mem _ hx))

theorem firstDedup_eq_singleton (l : List String) (t : String) :
    firstDedupAux [] l = [t] ↔ t ∈ l ∧ ∀ x ∈ l, x = t := by
  constructor
  · intro h
    have hmem : ∀ x, x ∈ firstDedupAux [] l ↔ x ∈ l := by
      intro x; rw [mem_firstDedupAux]; simp
    have ht : t ∈ firstDedupAux [] l := by
      rw [h]; exact List.mem_singleton_self t
    refine ⟨(hmem t).mp ht, fun x hx => ?_⟩
    have : x ∈ firstDedupAux [] l := (hmem x).mpr hx
    rw [h] at this
    exact List.mem_singleton.mp this
  · rintro ⟨ht, hall⟩
    cases l with
    | nil => cases ht
    | cons y ys =>
      have hy : y = t := hall y (List.mem_cons_self _ _)
      subst hy
      rw [firstDedupAux, if_neg (by simp)]
      have : firstDedupAux [y] ys = [] := by
        refine firstDedupAux_eq_nil ys [y] (fun x hx => ?_)
        rw [hall x (List.mem_cons_of_mem _ hx)]
        exact List.mem_singleton_self y
      rw [this]

theorem detailTourName_eq_some_iff (c : Concert) (ls : List Setlist) (t : String) :
    detailTourName c ls = some t ↔
      firstDedupAux []
        ((sortedSetlists c ls).filterMap
          (fun s => if s.tour_name != "" then some s.tour_name else none)) = [t] := by
  unfold detailTourName
  cases hl : firstDedupAux []
      ((sortedSetlists c ls).filterMap
        (fun s => if s.tour_name != "" then some s.tour_name else none)) with
  | nil => simp
  | cons a as =>
    cases as with
    | nil => simp
    | cons b bs => simp

/-- **C2 counterexample.** At a concrete concert with two setlists, one
carrying tour name "T" and one carrying no tour name at all, the code
still emits the concert-level `tour_name = "T"`, contradicting the claim
that no concert-level tour name is emitted when a setlist lacks one. -/
theorem tourName_emitted_despite_missing :
    detailTourName demoConcert [demoSetlistWithTour, demoSetlistNoTour] = some "T"
      ∧ demoSetlistNoTour.tour_name = ""
      ∧ 2 ≤ ([demoSetlistWithTour, demoSetlistNoTour] : List Setlist).length := by
  refine ⟨?_, rfl, by decide⟩
  rfl

/-- **C2 (amended).** For a concert with two or more setlists, the
concert-level `tour_name` is emitted with value `t` iff `t` is non-empty,
some setlist carries tour name `t`, and every setlist that carries a
(non-empty) tour name carries exactly `t`; setlists without a tour name
are ignored by the check. -/
theorem detailTourName_characterization (c : Concert) (ls : List Setlist)
    (h : 2 ≤ ls.length) :
    ∀ t, detailTourName c ls = some t ↔
      (t ≠ "" ∧ (∃ s ∈ ls, s.tour_name = t) ∧
        ∀ s ∈ ls, s.tour_name ≠ "" → s.tour_name = t) := by
  intro t
  rw [detailTourName_eq_some_iff, firstDedup_eq_singleton]
  have hmem : ∀ x : String,
      (x ∈ (sortedSetlists c ls).filterMap
        (fun s => if s.tour_name != "" then some s.tour_name else none)) ↔
      ∃ s ∈ ls, s.tour_name ≠ "" ∧ s.tour_name = x := by
    intro x
    rw [List.mem_filterMap]
    constructor
    · rintro ⟨s, hs, hf⟩
      have hs' : s ∈ ls := by
        have := List.mem_insertionSort (setlistLE c) (l := ls) (x := s)
        exact this.mp hs
      by_cases htn : s.tour_name = ""
      · rw [if_neg (by simp [htn])] at hf
        cases hf
      · rw [if_pos (by simp [htn])] at hf
        exact ⟨s, hs', htn, Option.some.injEq _ _ ▸ hf⟩
    · rintro ⟨s, hs, htn, rfl⟩
      refine ⟨s, ?_, ?_⟩
      · have := List.mem_insertionSort (setlistLE c) (l := ls) (x := s)
        exact this.mpr hs
      · rw [if_pos (by simp [htn])]
  constructor
  · rintro ⟨ht, hall⟩
    obtain ⟨s, hs, hsn, hst⟩ := (hmem t).mp ht
    refine ⟨hst ▸ hsn, ⟨s, hs, hst⟩, fun u hu hun => ?_⟩
    exact hall u.tour_name ((hmem u.tour_name).mpr ⟨u, hu, hun, rfl⟩)
  · rintro ⟨htne, ⟨s, hs, hst⟩, hall⟩
    constructor
    · exact (hmem t).mpr ⟨s, hs, hst ▸ htne, hst⟩
    · intro x hx
      obtain ⟨u, hu, hun, hux⟩ := (hmem x).mp hx
      rw [← hux]
      exact hall u hu hun

/-- Witness for the amended C2 at a concrete input. -/
theorem detailTourName_characterization_witness :
    2 ≤ ([demoSetlistWithTour, demoSetlistNoTour] : List Setlist).length ∧
    ∀ t, detailTourName demoConcert [demoSetlistWithTour, demoSetlistNoTour] = some t ↔
      (t ≠ "" ∧ (∃ s ∈ [demoSetlistWithTour, demoSetlistNoTour], s.tour_name = t) ∧
        ∀ s ∈ [demoSetlistWithTour, demoSetlistNoTour], s.tour_name ≠ "" → s.tour_name = t) :=
  ⟨by decide, detailTourName_characterization demoConcert
    [demoSetlistWithTour, demoSetlistNoTour] (by decide)⟩

theorem pyFold_first_max {α : Type} (key : α → Int) :
    ∀ (xs : List α) (x : α), ∃ m l1 l2,
      xs.foldl (fun acc y => if key acc < key y then y else acc) x = m ∧
      x :: xs = l1 ++ m :: l2 ∧
      (∀ u ∈ x :: xs, key u ≤ key m) ∧ (∀ u ∈ l1, key u < key m) := by
  intro xs
  induction xs with
  | nil =>
    intro x
    refine ⟨x, [], [], rfl, rfl, ?_, ?_⟩
    · intro u hu
      rcases List.mem_singleton.mp hu with rfl
      exact le_refl _
    · intro u hu; cases hu
  | cons y ys ih =>
    intro x
    rw [List.foldl_cons]
    by_cases hk : key x < key y
    · rw [if_pos hk]
      obtain ⟨m, l1, l2, heq, hdec, hle, hlt⟩ := ih y
      have hym : key y ≤ key m := hle y (List.mem_cons_self _ _)
      refine ⟨m, x :: l1, l2, heq, ?_, ?_, ?_⟩
      · rw [List.cons_append, ← hdec]
      · intro u hu
        rcases List.mem_cons.mp hu with rfl | hu
        · exact le_of_lt (lt_of_lt_of_le hk hym)
        · exact hle u hu
      · intro u hu
        rcases List.mem_cons.mp hu with rfl | hu
        · exact lt_of_lt_of_le hk hym
        · exact hlt u hu
    · rw [if_neg hk]
      obtain ⟨m, l1, l2, heq, hdec, hle, hlt⟩ := ih x
      cases l1 with
      | nil =>
        simp only [List.nil_append] at hdec
        obtain ⟨h1, h2⟩ := List.cons.inj hdec
        refine ⟨m, [], y :: l2, heq, ?_, ?_, ?_⟩
        · rw [List.nil_append, h1, h2]
        · intro u hu
          rcases List.mem_cons.mp hu with rfl | hu
          · exact le_of_eq (congrArg key h1)
          · rcases List.mem_cons.mp hu with rfl | hu
            · exact le_trans (not_lt.mp hk) (le_of_eq (congrArg key h1))
            · exact hle u (List.mem_cons_of_mem _ hu)
        · intro u hu; cases hu
      | cons a l1' =>
        simp only [List.cons_append] at hdec
        obtain ⟨h1, h2⟩ := List.cons.inj hdec
        have hxm : key x < key m := by
          rw [congrArg key h1]
          exact hlt a (List.mem_cons_self _ _)
        refine ⟨m, x :: y :: l1', l2, heq, ?_, ?_, ?_⟩
        · rw [h2]; rfl
        · intro u hu
          rcases List.mem_cons.mp hu with rfl | hu
          · exact le_of_lt hxm
          · rcases List.mem_cons.mp hu with rfl | hu
            · exact le_of_lt (lt_of_le_of_lt (not_lt.mp hk) hxm)
            · exact hle u (List.mem_cons_of_mem _ hu)
        · intro u hu
          rcases List.mem_cons.mp hu with rfl | hu
          · exact hxm
          · rcases List.mem_cons.mp hu with rfl | hu
            · exact lt_of_le_of_lt (not_lt.mp hk) hxm
            · have hu' : u ∈ a :: l1' := List.mem_cons_of_mem _ hu
              exact hlt u hu'

/-- **C3 counterexample.** At a setlist whose two non-encore songs share
the maximum position, the code (Python `max`) picks the FIRST song at
that position, not the last one as the claim states. -/
theorem closingSong_tie_counterexample :
    closingSongOf tieSetlist = some tieSongA ∧
    tieSetlist.songs = [tieSongA, tieSongB] ∧
    tieSongA.position = tieSongB.position ∧ tieSongA ≠ tieSongB := by
  refine ⟨rfl, rfl, rfl, by decide⟩

/-- **C3 (amended).** For every setlist with a non-empty list of
non-encore songs, the closing song is a non-encore song of maximum
position, and when several non-encore songs share that maximum position
the FIRST such song in setlist order is the one chosen (every song
strictly before the chosen one has strictly smaller position). -/
theorem closingSong_first_at_max_position (s : Setlist)
    (h : nonEncoreSongs s ≠ []) :
    ∃ m l1 l2, closingSongOf s = some m ∧
      nonEncoreSongs s = l1 ++ m :: l2 ∧
      (∀ u ∈ nonEncoreSongs s, u.position ≤ m.position) ∧
      (∀ u ∈ l1, u.position < m.position) := by
  cases hne : nonEncoreSongs s with
  | nil => exact absurd hne h
  | cons x xs =>
    obtain ⟨m, l1, l2, heq, hdec, hle, hlt⟩ :=
      pyFold_first_max (fun sg => sg.position) xs x
    have hcs : closingSongOf s = pyMaxBy (fun sg => sg.position) (x :: xs) := by
      rw [closingSongOf, hne]
    refine ⟨m, l1, l2, ?_, hdec, hle, hlt⟩
    rw [hcs]
    exact congrArg some heq

/-- Witness for the amended C3 at a concrete setlist. -/
theorem closingSong_first_at_max_position_witness :
    nonEncoreSongs tieSetlist ≠ [] ∧
      ∃ m l1 l2, closingSongOf tieSetlist = some m ∧
        nonEncoreSongs tieSetlist = l1 ++ m :: l2 ∧
        (∀ u ∈ nonEncoreSongs tieSetlist, u.position ≤ m.position) ∧
        (∀ u ∈ l1, u.position < m.position) :=
  ⟨by decide, closingSong_first_at_max_position tieSetlist (by decide)⟩

theorem setlistLE_total (c : Concert) :
    ∀ s t, setlistLE c s t ∨ setlistLE c t s := by
  intro s t
  rcases lt_trichotomy (setlistSortKey c s).1 (setlistSortKey c t).1 with h | h | h
  · exact Or.inl (Or.inl h)
  · rcases le_total (setlistSortKey c s).2 (setlistSortKey c t).2 with h2 | h2
    · exact Or.inl (Or.inr ⟨h, (pyStrLE_iff _ _).mpr h2⟩)
    · exact Or.inr (Or.inr ⟨h.symm, (pyStrLE_iff _ _).mpr h2⟩)
  · exact Or.inr (Or.inl h)

theorem setlistLE_trans (c : Concert) :
    ∀ s t u, setlistLE c s t → setlistLE c t u → setlistLE c s u := by
  intro s t u hst htu
  rcases hst with h1 | ⟨h1, h1n⟩
  · rcases htu with h2 | ⟨h2, h2n⟩
    · exact Or.inl (lt_trans h1 h2)
    · exact Or.inl (h2 ▸ h1)
  · rcases htu with h2 | ⟨h2, h2n⟩
    · exact Or.inl (h1 ▸ h2)
    · exact Or.inr ⟨h1.trans h2, (pyStrLE_iff _ _).mpr
        (le_trans ((pyStrLE_iff _ _).mp h1n) ((pyStrLE_iff _ _).mp h2n))⟩

/-- **C7.** For a concert with two or more setlists, the emitted
setlists array is a permutation of the input sorted by the
(role-priority, artist-name) key: opener setlists (priority 1) come
before headliner/festival-performer setlists (priority 2), ties broken
by ascending artist name, the role resolved by name against the
concert's artist roster with default headliner. -/
theorem sortedSetlists_sorted (c : Concert) (ls : List Setlist)
    (h : 2 ≤ ls.length) :
    (sortedSetlists c ls).Perm ls ∧
    List.Sorted (setlistLE c) (sortedSetlists c ls) ∧
    List.Pairwise (fun s t => rolePriority (roleOf c s.artist_name) ≤
      rolePriority (roleOf c t.artist_name)) (sortedSetlists c ls) := by
  haveI : IsTotal Setlist (setlistLE c) := ⟨setlistLE_total c⟩
  haveI : IsTrans Setlist (setlistLE c) := ⟨fun a b d => setlistLE_trans c a b d⟩
  refine ⟨List.perm_insertionSort _ _, List.sorted_insertionSort _ _, ?_⟩
  refine List.Pairwise.imp ?_ (List.sorted_insertionSort _ _)
  intro s t hst
  rcases hst with h1 | ⟨h1, -⟩
  · exact le_of_lt h1
  · exact le_of_eq h1

/-- Witness for C7: a headliner setlist listed before an opener setlist
in the input. -/
theorem sortedSetlists_sorted_witness :
    2 ≤ ([demoSetlistWithTour, demoSetlistNoTour] : List Setlist).length ∧
    ((sortedSetlists demoConcert [demoSetlistWithTour, demoSetlistNoTour]).Perm
        [demoSetlistWithTour, demoSetlistNoTour] ∧
      List.Sorted (setlistLE demoConcert)
        (sortedSetlists demoConcert [demoSetlistWithTour, demoSetlistNoTour]) ∧
      List.Pairwise (fun s t => rolePriority (roleOf demoConcert s.artist_name) ≤
        rolePriority (roleOf demoConcert t.artist_name))
        (sortedSetlists demoConcert [demoSetlistWithTour, demoSetlistNoTour])) :=
  ⟨by decide, sortedSetlists_sorted demoConcert
    [demoSetlistWithTour, demoSetlistNoTour] (by decide)⟩

theorem foldl_add_eq_sum (f : Setlist → Int) :
    ∀ (l : List Setlist) (acc : Int),
      l.foldl (fun a s => a + f s) acc = acc + (l.map f).sum := by
  intro l
  induction l with
  | nil => intro acc; simp
  | cons x xs ih =>
    intro acc
    rw [List.foldl_cons, ih, List.map_cons, List.sum_cons]
    ring

theorem sum_map_filter_split (p : Setlist → Bool) (f : Setlist → Int) :
    ∀ l : List Setlist,
      ((l.filter p).map f).sum + ((l.filter (fun x => !p x)).map f).sum
        = (l.map f).sum := by
  intro l
  induction l with
  | nil => simp
  | cons x xs ih =>
    by_cases hp : p x = true
    · simp [List.filter_cons, hp]
      omega
    · have hp' : p x = false := by
        cases hpx : p x
        · rfl
        · exact absurd hpx hp
      simp [List.filter_cons, hp']
      omega

/-- **C4 counterexample.** With one loaded concert, one matching setlist
(`song_count` 3) and one orphaned setlist (`song_count` 5), the code's
`total_songs` is 8, not the 3 the claim demands. -/
theorem totalSongs_includes_orphans_counterexample :
    groupedSetlist [demoConcert] orphanSetlist = false ∧
    totalSongs [matchedSetlist, orphanSetlist] = 8 ∧
    groupedSongCountSum [demoConcert] [matchedSetlist, orphanSetlist] = 3 ∧
    totalSongs [matchedSetlist, orphanSetlist] ≠
      groupedSongCountSum [demoConcert] [matchedSetlist, orphanSetlist] := by
  refine ⟨rfl, rfl, rfl, by decide⟩

/-- **C4 (amended).** `total_songs` sums `song_count` over ALL setlists,
orphaned ones included: it equals the non-orphaned sum plus the orphaned
sum.  Orphaned setlists do contribute nothing to the grouping-based
aggregations: dropping them changes neither the setlist group keys
(hence neither `hasSetlist` nor the detail files) nor the per-song
analytics counts. -/
theorem totalSongs_counts_all_setlists (concerts : List Concert)
    (setlists : List Setlist) :
    totalSongs setlists =
      groupedSongCountSum concerts setlists + orphanSongCountSum concerts setlists ∧
    setlistGroupKeys concerts (setlists.filter (groupedSetlist concerts)) =
      setlistGroupKeys concerts setlists ∧
    ∀ name, songCounts concerts (setlists.filter (analyticsIncluded concerts)) name =
      songCounts concerts setlists name := by
  refine ⟨?_, ?_, ?_⟩
  · unfold totalSongs groupedSongCountSum orphanSongCountSum
    rw [foldl_add_eq_sum, zero_add]
    exact (sum_map_filter_split (groupedSetlist concerts) _ setlists).symm
  · unfold setlistGroupKeys
    rw [List.filter_filter]
    have hfun : (fun s => groupedSetlist concerts s && groupedSetlist concerts s)
        = groupedSetlist concerts := funext fun s => Bool.and_self _
    rw [hfun]
  · intro name
    unfold songCounts
    rw [List.filter_filter]
    have hfun : (fun s => analyticsIncluded concerts s && analyticsIncluded concerts s)
        = analyticsIncluded concerts := funext fun s => Bool.and_self _
    rw [hfun]

theorem byYearDictAux_isSome :
    ∀ (l : List Concert) (acc : List (Int × Nat)),
      (byYearDictAux acc l).isSome = true ↔
        ∀ c ∈ l, (c.date ≠ "" ∧ 4 ≤ c.date.length) →
          (pyIntOfString? ((c.date.toList.take 4).asString)).isSome = true := by
  intro l
  induction l with
  | nil => intro acc; simp [byYearDictAux]
  | cons c rest ih =>
    intro acc
    have hguard : (c.date != "" && decide (4 ≤ c.date.length)) = true ↔
        (c.date ≠ "" ∧ 4 ≤ c.date.length) := by
      rw [Bool.and_eq_true, bne_iff_ne, decide_eq_true_eq]
    by_cases hc : (c.date != "" && decide (4 ≤ c.date.length)) = true
    · rw [byYearDictAux, if_pos hc]
      cases hp : pyIntOfString? ((c.date.toList.take 4).asString) with
      | none =>
        simp only [hp, Option.isSome_none, Bool.false_eq_true, false_iff, not_forall]
        refine ⟨c, List.mem_cons_self _ _, ?_⟩
        have hp' : pyIntOfString? (List.take 4 c.date.data).asString = none := hp
        simp [hguard.mp hc, hp']
      | some y =>
        simp only [hp]
        rw [ih (bumpYear acc y)]
        constructor
        · intro h u hu hg
          rcases List.mem_cons.mp hu with rfl | hu
          · rw [hp]; rfl
          · exact h u hu hg
        · intro h u hu hg
          exact h u (List.mem_cons_of_mem _ hu) hg
    · rw [byYearDictAux, if_neg hc, ih acc]
      constructor
      · intro h u hu hg
        rcases List.mem_cons.mp hu with rfl | hu
        · exact absurd (hguard.mpr hg) hc
        · exact h u hu hg
      · intro h u hu hg
        exact h u (List.mem_cons_of_mem _ hu) hg

/-- **C5 counterexample.** A concert whose date is the 4-character
non-numeric string "abcd" satisfies the claim's guard (non-empty, length
at least 4), yet `int(date_str[:4])` raises and the `concerts_by_year`
computation aborts (`none`) rather than completing. -/
theorem concertsByYear_raises_counterexample :
    badDateConcert.date ≠ "" ∧ 4 ≤ badDateConcert.date.length ∧
    concertsByYear? [badDateConcert] = none := by
  refine ⟨by decide, by decide, by decide⟩

/-- **C5 (amended).** The `concerts_by_year` computation completes
without raising iff, for every concert whose date string is non-empty
and at least 4 characters long, the first 4 characters parse as a Python
integer literal; a concert whose qualifying date prefix does not parse
(e.g. non-numeric characters) raises `ValueError` and aborts the run,
while shorter or missing dates are merely skipped. -/
theorem concertsByYear_completes_iff (concerts : List Concert) :
    (concertsByYear? concerts).isSome = true ↔
      ∀ c ∈ concerts, (c.date ≠ "" ∧ 4 ≤ c.date.length) →
        (pyIntOfString? ((c.date.toList.take 4).asString)).isSome = true := by
  unfold concertsByYear?
  rw [Option.isSome_map']
  exact byYearDictAux_isSome concerts []

theorem isMostlyCover_iff (N K : Nat) : isMostlyCover N K = true ↔ 2 * K > N := by
  unfold isMostlyCover
  rw [decide_eq_true_eq, gt_iff_lt, div_lt_iff₀ (by norm_num : (0:ℚ) < 2)]
  constructor
  · intro h
    have h2 : (N : ℚ) < ((2 * K : Nat) : ℚ) := by push_cast; linarith
    exact_mod_cast h2
  · intro h
    have h2 : (N : ℚ) < ((2 * K : Nat) : ℚ) := by exact_mod_cast h
    push_cast at h2
    linarith

/-- **C6.** Every `all_songs` entry has `is_mostly_cover = true` exactly
when its cover count K out of total count N satisfies K > N/2 under
exact division — equivalently 2K > N; the boundary behaves as claimed:
K = N/2 of N = 2M is not flagged, K = N/2 + 1 is. -/
theorem allSongs_mostlyCover_strict_majority (concerts : List Concert)
    (setlists : List Setlist) :
    (∀ e ∈ allSongs concerts setlists,
      (e.is_mostly_cover = true ↔
        ((coverCounts concerts setlists e.name : ℚ) >
          (songCounts concerts setlists e.name : ℚ) / 2)) ∧
      (e.is_mostly_cover = true ↔
        2 * coverCounts concerts setlists e.name > songCounts concerts setlists e.name)) ∧
    (∀ M : Nat, isMostlyCover (2 * M) M = false) ∧
    (∀ M : Nat, isMostlyCover (2 * M) (M + 1) = true) := by
  refine ⟨?_, ?_, ?_⟩
  · intro e he
    have he' : e ∈ (allSongNames concerts setlists).map (fun n =>
        (⟨n, songCounts concerts setlists n,
          isMostlyCover (songCounts concerts setlists n)
            (coverCounts concerts setlists n)⟩ : AllSongsEntry)) := by
      have h := List.mem_insertionSort allSongsLE (l :=
        (allSongNames concerts setlists).map (fun n =>
          (⟨n, songCounts concerts setlists n,
            isMostlyCover (songCounts concerts setlists n)
              (coverCounts concerts setlists n)⟩ : AllSongsEntry))) (x := e)
      exact h.mp he
    rcases List.mem_map.mp he' with ⟨n, _, rfl⟩
    constructor
    · simp [isMostlyCover]
    · exact isMostlyCover_iff _ _
  · intro M
    rw [Bool.eq_false_iff]
    intro htrue
    have h := (isMostlyCover_iff _ _).mp htrue
    omega
  · intro M
    exact (isMostlyCover_iff _ _).mpr (by omega)

/-- Witness for C6 at a concrete entry: song "X" heard twice, covered
twice, is flagged mostly-cover. -/
theorem allSongs_mostlyCover_strict_majority_witness :
    ((⟨"X", 2, true⟩ : AllSongsEntry) ∈
      allSongs [analyticsConcert1, analyticsConcert2]
        [analyticsSetlist1, analyticsSetlist2]) ∧
    (((⟨"X", 2, true⟩ : AllSongsEntry).is_mostly_cover = true ↔
      ((coverCounts [analyticsConcert1, analyticsConcert2]
          [analyticsSetlist1, analyticsSetlist2]
          (⟨"X", 2, true⟩ : AllSongsEntry).name : ℚ) >
        (songCounts [analyticsConcert1, analyticsConcert2]
          [analyticsSetlist1, analyticsSetlist2]
          (⟨"X", 2, true⟩ : AllSongsEntry).name : ℚ) / 2)) ∧
    ((⟨"X", 2, true⟩ : AllSongsEntry).is_mostly_cover = true ↔
      2 * coverCounts [analyticsConcert1, analyticsConcert2]
          [analyticsSetlist1, analyticsSetlist2]
          (⟨"X", 2, true⟩ : AllSongsEntry).name >
        songCounts [analyticsConcert1, analyticsConcert2]
          [analyticsSetlist1, analyticsSetlist2]
          (⟨"X", 2, true⟩ : AllSongsEntry).name)) := by
  have hsX : songCounts [analyticsConcert1, analyticsConcert2]
      [analyticsSetlist1, analyticsSetlist2] "X" = 2 := by decide
  have hcX : coverCounts [analyticsConcert1, analyticsConcert2]
      [analyticsSetlist1, analyticsSetlist2] "X" = 2 := by decide
  have hflag : isMostlyCover 2 2 = true := (isMostlyCover_iff 2 2).mpr (by omega)
  have hnames : allSongNames [analyticsConcert1, analyticsConcert2]
      [analyticsSetlist1, analyticsSetlist2] = ["X", "C", "E"] := by decide
  have hmem : (⟨"X", 2, true⟩ : AllSongsEntry) ∈
      allSongs [analyticsConcert1, analyticsConcert2]
        [analyticsSetlist1, analyticsSetlist2] := by
    unfold allSongs
    rw [List.mem_insertionSort, hnames, List.map_cons, hsX, hcX, hflag]
    exact List.mem_cons_self _ _
  exact ⟨hmem,
    (allSongs_mostlyCover_strict_majority [analyticsConcert1, analyticsConcert2]
      [analyticsSetlist1, analyticsSetlist2]).1 ⟨"X", 2, true⟩ hmem⟩

theorem countP_congr_list {α : Type} (p q : α → Bool) :
    ∀ l : List α, (∀ a ∈ l, p a = q a) → l.countP p = l.countP q := by
  intro l
  induction l with
  | nil => intro _; rfl
  | cons x xs ih =>
    intro h
    rw [List.countP_cons, List.countP_cons, h x (List.mem_cons_self _ _),
      ih (fun a ha => h a (List.mem_cons_of_mem _ ha))]

theorem artistDictCount_eq_of_ne (concerts : List Concert) (aid : String)
    (hne : aid ≠ "") :
    artistDictCount concerts aid = artistMembershipCount concerts aid := by
  unfold artistDictCount artistMembershipCount
  have hfun : (fun c : Concert =>
      c.artists.countP (fun a => a.artist_id != "" && a.artist_id == aid))
      = (fun c : Concert => c.artists.countP (fun a => a.artist_id == aid)) := by
    funext c
    refine countP_congr_list _ _ c.artists (fun a _ => ?_)
    by_cases h : (a.artist_id == aid) = true
    · have ha : a.artist_id = aid := eq_of_beq h
      rw [h, Bool.and_true]
      exact bne_iff_ne.mpr (by rw [ha]; exact hne)
    · have h' : (a.artist_id == aid) = false := by
        cases hb : a.artist_id == aid
        · rfl
        · exact absurd hb h
      rw [h', Bool.and_false]
  rw [hfun]

theorem artistDictCount_empty_id (concerts : List Concert) :
    artistDictCount concerts "" = 0 := by
  unfold artistDictCount
  refine List.sum_eq_zero ?_
  intro x hx
  rcases List.mem_map.mp hx with ⟨c, _, rfl⟩
  refine List.countP_eq_zero.mpr ?_
  intro a _
  intro hcontra
  rw [Bool.and_eq_true, bne_iff_ne] at hcontra
  exact hcontra.1 (eq_of_beq hcontra.2)

theorem venueDictCount_eq_of_ne (concerts : List Concert) (vid : String)
    (hne : vid ≠ "") :
    venueDictCount concerts vid = venueMatchCount concerts vid := by
  unfold venueDictCount venueMatchCount
  refine countP_congr_list _ _ concerts (fun c _ => ?_)
  by_cases h : (c.venue_id == vid) = true
  · have hv : c.venue_id = vid := eq_of_beq h
    rw [h, Bool.and_true]
    exact bne_iff_ne.mpr (by rw [hv]; exact hne)
  · have h' : (c.venue_id == vid) = false := by
      cases hb : c.venue_id == vid
      · rfl
      · exact absurd hb h
    rw [h', Bool.and_false]

theorem venueDictCount_empty_id (concerts : List Concert) :
    venueDictCount concerts "" = 0 := by
  unfold venueDictCount
  refine List.countP_eq_zero.mpr ?_
  intro c _
  intro hcontra
  rw [Bool.and_eq_true, bne_iff_ne] at hcontra
  exact hcontra.1 (eq_of_beq hcontra.2)

theorem artistEntryLE_total : ∀ a b, artistEntryLE a b ∨ artistEntryLE b a := by
  intro a b
  rcases lt_trichotomy a.concert_count b.concert_count with h | h | h
  · exact Or.inr (Or.inl h)
  · rcases le_total a.name b.name with h2 | h2
    · exact Or.inl (Or.inr ⟨h, (pyStrLE_iff _ _).mpr h2⟩)
    · exact Or.inr (Or.inr ⟨h.symm, (pyStrLE_iff _ _).mpr h2⟩)
  · exact Or.inl (Or.inl h)

theorem artistEntryLE_trans :
    ∀ a b c, artistEntryLE a b → artistEntryLE b c → artistEntryLE a c := by
  intro a b c hab hbc
  rcases hab with h1 | ⟨h1, h1n⟩
  · rcases hbc with h2 | ⟨h2, h2n⟩
    · exact Or.inl (lt_trans h2 h1)
    · exact Or.inl (h2 ▸ h1)
  · rcases hbc with h2 | ⟨h2, h2n⟩
    · exact Or.inl (h1.symm ▸ h2)
    · exact Or.inr ⟨h1.trans h2, (pyStrLE_iff _ _).mpr
        (le_trans ((pyStrLE_iff _ _).mp h1n) ((pyStrLE_iff _ _).mp h2n))⟩

theorem venueEntryLE_total : ∀ a b, venueEntryLE a b ∨ venueEntryLE b a := by
  intro a b
  rcases lt_trichotomy a.concert_count b.concert_count with h | h | h
  · exact Or.inr (Or.inl h)
  · rcases le_total a.name b.name with h2 | h2
    · exact Or.inl (Or.inr ⟨h, (pyStrLE_iff _ _).mpr h2⟩)
    · exact Or.inr (Or.inr ⟨h.symm, (pyStrLE_iff _ _).mpr h2⟩)
  · exact Or.inl (Or.inl h)

theorem venueEntryLE_trans :
    ∀ a b c, venueEntryLE a b → venueEntryLE b c → venueEntryLE a c := by
  intro a b c hab hbc
  rcases hab with h1 | ⟨h1, h1n⟩
  · rcases hbc with h2 | ⟨h2, h2n⟩
    · exact Or.inl (lt_trans h2 h1)
    · exact Or.inl (h2 ▸ h1)
  · rcases hbc with h2 | ⟨h2, h2n⟩
    · exact Or.inl (h1.symm ▸ h2)
    · exact Or.inr ⟨h1.trans h2, (pyStrLE_iff _ _).mpr
        (le_trans ((pyStrLE_iff _ _).mp h1n) ((pyStrLE_iff _ _).mp h2n))⟩

/-- **C8.** Every `artists.json` entry's `concert_count` equals the
independently recounted number of concert-artist memberships for that
id over all loaded concerts and all roles; every `venues.json` entry's
`concert_count` equals the number of loaded concerts whose `venue_id`
matches; zero-count entities are excluded; and both files are sorted by
descending count with ties by ascending name. -/
theorem indexCounts_and_sorted (concerts : List Concert)
    (artistMap : List (String × String)) (venueMap : List VenueDoc) :
    (∀ e ∈ artistsJson concerts artistMap,
      e.concert_count = artistMembershipCount concerts e.id ∧ 0 < e.concert_count) ∧
    List.Sorted artistEntryLE (artistsJson concerts artistMap) ∧
    (∀ e ∈ venuesJson concerts venueMap,
      e.concert_count = venueMatchCount concerts e.id ∧ 0 < e.concert_count) ∧
    List.Sorted venueEntryLE (venuesJson concerts venueMap) := by
  haveI : IsTotal ArtistEntry artistEntryLE := ⟨artistEntryLE_total⟩
  haveI : IsTrans ArtistEntry artistEntryLE := ⟨artistEntryLE_trans⟩
  haveI : IsTotal VenueEntry venueEntryLE := ⟨venueEntryLE_total⟩
  haveI : IsTrans VenueEntry venueEntryLE := ⟨venueEntryLE_trans⟩
  refine ⟨?_, List.sorted_insertionSort _ _, ?_, List.sorted_insertionSort _ _⟩
  · intro e he
    unfold artistsJson at he
    rw [List.mem_insertionSort] at he
    rcases List.mem_filterMap.mp he with ⟨p, _, hf⟩
    by_cases hpos : 0 < artistDictCount concerts p.1
    · rw [if_pos hpos] at hf
      obtain rfl := Option.some.inj hf
      have hne : p.1 ≠ "" := by
        intro h0
        rw [h0, artistDictCount_empty_id] at hpos
        exact Nat.lt_irrefl _ hpos
      exact ⟨artistDictCount_eq_of_ne concerts p.1 hne, hpos⟩
    · rw [if_neg hpos] at hf
      cases hf
  · intro e he
    unfold venuesJson at he
    rw [List.mem_insertionSort] at he
    rcases List.mem_filterMap.mp he with ⟨v, _, hf⟩
    by_cases hpos : 0 < venueDictCount concerts v.id
    · rw [if_pos hpos] at hf
      obtain rfl := Option.some.inj hf
      have hne : v.id ≠ "" := by
        intro h0
        rw [h0, venueDictCount_empty_id] at hpos
        exact Nat.lt_irrefl _ hpos
      exact ⟨venueDictCount_eq_of_ne concerts v.id hne, hpos⟩
    · rw [if_neg hpos] at hf
      cases hf

/-- Witness for C8 at a concrete entry: opener O is counted in both
demo concerts. -/
theorem indexCounts_and_sorted_witness :
    ((⟨"o", "O", 2⟩ : ArtistEntry) ∈
      artistsJson [analyticsConcert1, analyticsConcert2]
        [("p", "P"), ("o", "O"), ("z", "Z")]) ∧
    ((⟨"o", "O", 2⟩ : ArtistEntry).concert_count =
        artistMembershipCount [analyticsConcert1, analyticsConcert2] "o" ∧
      0 < (⟨"o", "O", 2⟩ : ArtistEntry).concert_count) :=
  ⟨by decide,
    (indexCounts_and_sorted [analyticsConcert1, analyticsConcert2]
      [("p", "P"), ("o", "O"), ("z", "Z")] []).1 ⟨"o", "O", 2⟩ (by decide)⟩

/-- **C9.** In the venue- and artist-detail files, each per-concert
`has_setlist` value comes from the stored `has_setlist` field of the
concert record (default false), not from the computed setlist grouping;
at the demo input the same concert has `hasSetlist = true` in
`concerts.json` but `has_setlist = false` in both detail files. -/
theorem detailHasSetlist_from_stored (concerts : List Concert) :
    (∀ vid : String, ∀ e ∈ concertsAtVenue concerts vid,
      ∃ c ∈ concerts, c.venue_id = vid ∧ e.id = c.id ∧
        e.has_setlist = c.has_setlist.getD false) ∧
    (∀ aid : String, ∀ e ∈ concertsForArtist concerts aid,
      ∃ c ∈ concerts, e.id = c.id ∧ e.has_setlist = c.has_setlist.getD false) ∧
    ((concertIndex [analyticsConcert1] [analyticsSetlist1]).map
        (fun e => e.hasSetlist) = [true] ∧
      (concertsAtVenue [analyticsConcert1] "v1").map
        (fun e => e.has_setlist) = [false] ∧
      (concertsForArtist [analyticsConcert1] "p").map
        (fun e => e.has_setlist) = [false]) := by
  refine ⟨?_, ?_, by decide⟩
  · intro vid e he
    unfold concertsAtVenue at he
    rw [List.mem_insertionSort] at he
    rcases List.mem_map.mp he with ⟨c, hc, rfl⟩
    rcases List.mem_filter.mp hc with ⟨hcm, hcv⟩
    exact ⟨c, hcm, eq_of_beq hcv, rfl, rfl⟩
  · intro aid e he
    unfold concertsForArtist at he
    rw [List.mem_insertionSort] at he
    rcases List.mem_filterMap.mp he with ⟨c, hcm, hf⟩
    cases hfind : c.artists.find? (fun a => a.artist_id == aid) with
    | none => rw [hfind] at hf; cases hf
    | some a =>
      rw [hfind] at hf
      obtain rfl := Option.some.inj hf
      exact ⟨c, hcm, rfl, rfl⟩

/-- Witness for C9 at a concrete venue-detail entry. -/
theorem detailHasSetlist_from_stored_witness :
    ((⟨"c1", some 1, "2020-01-01", none, "P", false, none, none⟩ :
        VenueDetailConcert) ∈ concertsAtVenue [analyticsConcert1] "v1") ∧
    (∃ c ∈ [analyticsConcert1], c.venue_id = "v1" ∧
      (⟨"c1", some 1, "2020-01-01", none, "P", false, none, none⟩ :
        VenueDetailConcert).id = c.id ∧
      (⟨"c1", some 1, "2020-01-01", none, "P", false, none, none⟩ :
        VenueDetailConcert).has_setlist = c.has_setlist.getD false) :=
  ⟨by decide,
    (detailHasSetlist_from_stored [analyticsConcert1]).1 "v1"
      ⟨"c1", some 1, "2020-01-01", none, "P", false, none, none⟩ (by decide)⟩

/-- **C10.** The song analytics credit every qualifying song occurrence
of every included setlist to every primary artist of the setlist's
concert regardless of which artist performed the setlist — renaming the
setlists' own artist fields changes none of the opening/encore/closing
counts — and at the demo input (primary artist P, setlists performed by
opener O) the opener's position-1 song, encore song, and closing song
all land in P's `opening_songs_by_artist`, `encore_songs_by_artist`,
and `closing_songs_by_artist` tables. -/
theorem songAnalytics_ignore_setlist_artist :
    (∀ (concerts : List Concert) (setlists : List Setlist)
        (f : Setlist → String) (g : Setlist → Option String) (an sn : String),
      openingCount concerts
          (setlists.map (fun s => { s with artist_name := f s, artist_id := g s })) an sn
        = openingCount concerts setlists an sn ∧
      encoreCount concerts
          (setlists.map (fun s => { s with artist_name := f s, artist_id := g s })) an sn
        = encoreCount concerts setlists an sn ∧
      closingCount concerts
          (setlists.map (fun s => { s with artist_name := f s, artist_id := g s })) an sn
        = closingCount concerts setlists an sn) ∧
    inOpeningTable [analyticsConcert1, analyticsConcert2]
      [analyticsSetlist1, analyticsSetlist2] "P" "X" = true ∧
    inEncoreTable [analyticsConcert1, analyticsConcert2]
      [analyticsSetlist1, analyticsSetlist2] "P" "E" = true ∧
    inClosingTable [analyticsConcert1, analyticsConcert2]
      [analyticsSetlist1, analyticsSetlist2] "P" "C" = true ∧
    analyticsSetlist1.artist_name = "O" ∧
    roleOf analyticsConcert1 "O" = "opener" ∧
    primaryCountNamed analyticsConcert1 "P" = 1 ∧
    primaryCountNamed analyticsConcert1 "O" = 0 := by
  refine ⟨?_, by decide, by decide, by decide, rfl, by decide, by decide, by decide⟩
  intro concerts setlists f g an sn
  refine ⟨?_, ?_, ?_⟩
  · unfold openingCount
    rw [List.map_map]
    rfl
  · unfold encoreCount
    rw [List.map_map]
    rfl
  · unfold closingCount
    rw [List.map_map]
    rfl

end ConcertExport
